import Mathlib

/-!
Verification of the SCPI_MQTT instrument daemon against its specification.

The development shallowly embeds the relevant parts of the repository:
`utilities.find_SCPI`, the `Keithley2470` setters, the channel-validated
setters of `TTiPL303QMDP` and `ISEGSHR`, and the daemon's polling cycle,
deadline scheduler and MQTT control-message handler (`daemon.py`).
Wire traffic is modelled as explicit event traces, Python exceptions as an
`Option`/pair error channel, Python floats as rationals, and Python dicts
as association lists with first-key lookup.
-/

/-- A Python value as it can appear in an instrument config or payload:
a string, a bool, a number (floats modelled as rationals) or `None`. -/
inductive PyVal
  | str (s : String)
  | bool (b : Bool)
  | num (q : ℚ)
  | none
deriving DecidableEq, Repr

/-- Python `==` on the values above: strings compare as strings, numbers as
numbers, and — as in Python, where `bool` is a subtype of `int` — `True`/`False`
compare equal to `1`/`0`; `None` equals only `None`. -/
def pyEq : PyVal → PyVal → Bool
  | .str a, .str b => a = b
  | .bool a, .bool b => a = b
  | .num a, .num b => a = b
  | .bool a, .num b => (if a then (1 : ℚ) else 0) = b
  | .num a, .bool b => a = (if b then (1 : ℚ) else 0)
  | .none, .none => true
  | _, _ => false

/-- `str.lower()` applied only to strings, as in `find_SCPI`. -/
def pyLower : PyVal → PyVal
  | .str s => .str s.toLower
  | v => v

/-- First-match association-list lookup with string keys: the model of
Python `dict.get` / `dict[...]` (Python dicts have unique keys, so the first
match is the only one). -/
def plookup {α : Type} : List (String × α) → String → Option α
  | [], _ => Option.none
  | (k, v) :: rest, key => if k = key then some v else plookup rest key

/-- Embedding of `utilities.find_SCPI`:

    def find_SCPI(config, name, SCPI_dict, default = None):
        command = config.get(name, default)
        processed_command = command
        if isinstance(processed_command, str):
            processed_command = processed_command.lower()
        for key in SCPI_dict:
            if processed_command in SCPI_dict[key]:
                return key
        return default

The synonym table is an ordered association list (Python dicts iterate in
insertion order); membership uses Python equality `pyEq`. -/
def find_SCPI (config : List (String × PyVal)) (name : String)
    (dict : List (String × List PyVal)) (default : PyVal) : PyVal :=
  let command := (plookup config name).getD default
  let processed := pyLower command
  match dict.find? (fun kv => kv.2.any (fun e => pyEq e processed)) with
  | some kv => .str kv.1
  | Option.none => default

/-- C5: `find_SCPI` is total (it is a Lean function, hence never raises);
a string value (present key, or else the default) is lower-cased before
comparison; if the processed value occurs in some table entry's synonym list
the corresponding wire-code key is returned, otherwise the supplied default
is returned unchanged. -/
theorem find_SCPI_total_resolution (config : List (String × PyVal)) (name : String)
    (dict : List (String × List PyVal)) (default : PyVal) :
    (∃ kv, kv ∈ dict ∧
        kv.2.any (fun e => pyEq e (pyLower ((plookup config name).getD default))) = true ∧
        find_SCPI config name dict default = .str kv.1) ∨
    ((∀ kv ∈ dict,
        kv.2.any (fun e => pyEq e (pyLower ((plookup config name).getD default))) = false) ∧
      find_SCPI config name dict default = default) := by
  unfold find_SCPI
  cases h : dict.find? (fun kv =>
      kv.2.any (fun e => pyEq e (pyLower ((plookup config name).getD default)))) with
  | none =>
    refine Or.inr ⟨?_, by simp [h]⟩
    intro kv hkv
    have := List.find?_eq_none.mp h kv hkv
    simpa using this
  | some kv =>
    have hmem := List.mem_of_find?_eq_some h
    have hp := List.find?_some h
    exact Or.inl ⟨kv, hmem, by simpa using hp, by simp [h]⟩

/-- Python `pat in s` substring containment on strings, as used in
`"VOLT" in self.resource.query("SOUR:FUNC?")`. -/
def strContainsSub (s pat : String) : Bool :=
  (List.range (s.data.length + 1)).any (fun i => pat.data.isPrefixOf (s.data.drop i))

/-- The `Keithley2470` state that its setters consult: the cached
`source_limit` (set in `__init__`/`configure`) and the device's response to
the `SOUR:FUNC?` query. -/
structure K2470State where
  source_limit : Option ℚ
  sourceFunc : String
deriving DecidableEq, Repr

/-- One wire/log event of a `Keithley2470` setter: the `SOUR:FUNC?` query,
a `SOUR:VOLT {v}` write, a `SOUR:CURR {v}` write, or a logger warning. -/
inductive K2470Ev
  | queryFunc
  | writeVolt (v : ℚ)
  | writeCurr (v : ℚ)
  | warn (msg : String)
deriving DecidableEq, Repr

/-- Embedding of `Keithley2470.set_voltage` (keithley_2470.py lines 249-262):
clamp to `±source_limit` when configured and exceeded, then either write the
setpoint (when the source function is voltage) or record a warning. -/
def K2470_set_voltage (s : K2470State) (voltage : ℚ) : List K2470Ev :=
  let v :=
    match s.source_limit with
    | Option.none => voltage
    | some lim =>
      if |voltage| > lim then (if voltage > 0 then lim else -lim) else voltage
  if strContainsSub s.sourceFunc "VOLT" then
    [.queryFunc, .writeVolt v]
  else
    [.queryFunc, .warn "Tried to set voltage when in current source"]

/-- Embedding of `Keithley2470.set_current` (keithley_2470.py lines 264-277). -/
def K2470_set_current (s : K2470State) (current : ℚ) : List K2470Ev :=
  let v :=
    match s.source_limit with
    | Option.none => current
    | some lim =>
      if |current| > lim then (if current > 0 then lim else -lim) else current
  if strContainsSub s.sourceFunc "CURR" then
    [.queryFunc, .writeCurr v]
  else
    [.queryFunc, .warn "Tried to set current when in voltage source"]

/-- Embedding of the `source_limit` retrieval in `Keithley2470.__init__` and
`Keithley2470.configure`: non-numeric values become `None`, negative numeric
values are replaced by their absolute value (Python bools count as ints). -/
def parseSourceLimit (cfg : List (String × PyVal)) : Option ℚ :=
  match (plookup cfg "source_limit").getD (.str "none") with
  | .num q => some (if q < 0 then -q else q)
  | .bool b => some (if b then 1 else 0)
  | _ => Option.none

/-- C3: with a numeric source limit `lim` configured (which the constructor
stores as a nonnegative number — last conjunct), `set_voltage v` transmits `v`
when `|v| ≤ lim`, transmits `lim` when `v > lim` and `-lim` when `v < -lim`,
always as the single wire write following the source-function query, and
never raises; `set_current` behaves analogously. -/
theorem k2470_source_limit_clamp (s : K2470State) (v i lim : ℚ)
    (hlim : s.source_limit = some lim) (hnn : 0 ≤ lim) :
    (strContainsSub s.sourceFunc "VOLT" = true →
      (|v| ≤ lim → K2470_set_voltage s v = [.queryFunc, .writeVolt v]) ∧
      (v > lim → K2470_set_voltage s v = [.queryFunc, .writeVolt lim]) ∧
      (v < -lim → K2470_set_voltage s v = [.queryFunc, .writeVolt (-lim)])) ∧
    (strContainsSub s.sourceFunc "CURR" = true →
      (|i| ≤ lim → K2470_set_current s i = [.queryFunc, .writeCurr i]) ∧
      (i > lim → K2470_set_current s i = [.queryFunc, .writeCurr lim]) ∧
      (i < -lim → K2470_set_current s i = [.queryFunc, .writeCurr (-lim)])) ∧
    (∀ cfg l, parseSourceLimit cfg = some l → 0 ≤ l) := by
  refine ⟨?_, ?_, ?_⟩
  · intro hf
    refine ⟨?_, ?_, ?_⟩
    · intro h
      simp only [K2470_set_voltage, hlim, hf, if_true]
      rw [if_neg (not_lt.mpr h)]
    · intro h
      have habs : |v| > lim := lt_of_lt_of_le h (le_abs_self v)
      have hpos : v > 0 := lt_of_le_of_lt hnn h
      simp only [K2470_set_voltage, hlim, hf, if_true]
      rw [if_pos habs, if_pos hpos]
    · intro h
      have habs : |v| > lim := lt_of_lt_of_le (lt_neg_of_lt_neg h) (neg_le_abs v)
      have hneg : ¬ v > 0 := by
        have : v < 0 := lt_of_lt_of_le h (neg_nonpos_of_nonneg hnn)
        exact not_lt.mpr (le_of_lt this)
      simp only [K2470_set_voltage, hlim, hf, if_true]
      rw [if_pos habs, if_neg hneg]
  · intro hf
    refine ⟨?_, ?_, ?_⟩
    · intro h
      simp only [K2470_set_current, hlim, hf, if_true]
      rw [if_neg (not_lt.mpr h)]
    · intro h
      have habs : |i| > lim := lt_of_lt_of_le h (le_abs_self i)
      have hpos : i > 0 := lt_of_le_of_lt hnn h
      simp only [K2470_set_current, hlim, hf, if_true]
      rw [if_pos habs, if_pos hpos]
    · intro h
      have habs : |i| > lim := lt_of_lt_of_le (lt_neg_of_lt_neg h) (neg_le_abs i)
      have hneg : ¬ i > 0 := by
        have : i < 0 := lt_of_lt_of_le h (neg_nonpos_of_nonneg hnn)
        exact not_lt.mpr (le_of_lt this)
      simp only [K2470_set_current, hlim, hf, if_true]
      rw [if_pos habs, if_neg hneg]
  · intro cfg l hl
    unfold parseSourceLimit at hl
    rcases hcase : (plookup cfg "source_limit").getD (.str "none") with s' | b | q
    · rw [hcase] at hl; exact absurd hl (by simp)
    · rw [hcase] at hl
      simp only [Option.some.injEq] at hl
      subst hl
      split <;> norm_num
    · rw [hcase] at hl
      simp only [Option.some.injEq] at hl
      subst hl
      by_cases hq : q < 0
      · rw [if_pos hq]; linarith
      · rw [if_neg hq]; exact le_of_not_lt hq
    · rw [hcase] at hl; exact absurd hl (by simp)

/-- Witness for C3: with `source_limit = 10`, a voltage-sourcing device clamps
`set_voltage 15` to `10` and `set_voltage (-15)` to `-10`, and passes
`set_voltage 5` through; the current-sourcing analogue clamps likewise. -/
theorem k2470_source_limit_clamp_witness :
    K2470_set_voltage ⟨some 10, "VOLT"⟩ 15 = [.queryFunc, .writeVolt 10] ∧
    K2470_set_voltage ⟨some 10, "VOLT"⟩ (-15) = [.queryFunc, .writeVolt (-10)] ∧
    K2470_set_voltage ⟨some 10, "VOLT"⟩ 5 = [.queryFunc, .writeVolt 5] ∧
    K2470_set_current ⟨some 10, "CURR"⟩ 15 = [.queryFunc, .writeCurr 10] := by
  have hv := k2470_source_limit_clamp ⟨some 10, "VOLT"⟩ 15 0 10 rfl (by norm_num)
  have hv2 := k2470_source_limit_clamp ⟨some 10, "VOLT"⟩ (-15) 0 10 rfl (by norm_num)
  have hv3 := k2470_source_limit_clamp ⟨some 10, "VOLT"⟩ 5 0 10 rfl (by norm_num)
  have hc := k2470_source_limit_clamp ⟨some 10, "CURR"⟩ 0 15 10 rfl (by norm_num)
  refine ⟨(hv.1 (by decide)).2.1 (by norm_num),
    (hv2.1 (by decide)).2.2 (by norm_num),
    (hv3.1 (by decide)).1 (by rw [abs_of_nonneg] <;> norm_num),
    (hc.2.1 (by decide)).2.1 (by norm_num)⟩

/-- C4: when the device is sourcing current (the `SOUR:FUNC?` response does
not contain `VOLT`), `set_voltage` issues no wire write at all — its trace is
exactly the source-function query followed by the logged warning — and
returns normally; symmetrically for `set_current` when sourcing voltage. -/
theorem k2470_interlock (s : K2470State) (v i : ℚ) :
    (strContainsSub s.sourceFunc "VOLT" = false →
      K2470_set_voltage s v =
        [.queryFunc, .warn "Tried to set voltage when in current source"] ∧
      ∀ e ∈ K2470_set_voltage s v,
        (∀ w, e ≠ K2470Ev.writeVolt w) ∧ (∀ w, e ≠ K2470Ev.writeCurr w)) ∧
    (strContainsSub s.sourceFunc "CURR" = false →
      K2470_set_current s i =
        [.queryFunc, .warn "Tried to set current when in voltage source"] ∧
      ∀ e ∈ K2470_set_current s i,
        (∀ w, e ≠ K2470Ev.writeVolt w) ∧ (∀ w, e ≠ K2470Ev.writeCurr w)) := by
  constructor
  · intro hf
    have htr : K2470_set_voltage s v =
        [.queryFunc, .warn "Tried to set voltage when in current source"] := by
      unfold K2470_set_voltage
      rw [hf]
      simp
    refine ⟨htr, ?_⟩
    intro e he
    rw [htr] at he
    simp only [List.mem_cons, List.not_mem_nil, or_false] at he
    rcases he with he | he <;> subst he <;>
      exact ⟨fun w => by simp, fun w => by simp⟩
  · intro hf
    have htr : K2470_set_current s i =
        [.queryFunc, .warn "Tried to set current when in voltage source"] := by
      unfold K2470_set_current
      rw [hf]
      simp
    refine ⟨htr, ?_⟩
    intro e he
    rw [htr] at he
    simp only [List.mem_cons, List.not_mem_nil, or_false] at he
    rcases he with he | he <;> subst he <;>
      exact ⟨fun w => by simp, fun w => by simp⟩

/-- Witness for C4: a device whose source function reads `CURR` performs no
write on `set_voltage 5`, and one reading `VOLT` performs none on
`set_current 3`. -/
theorem k2470_interlock_witness :
    (K2470_set_voltage ⟨some 10, "CURR"⟩ 5 =
        [.queryFunc, .warn "Tried to set voltage when in current source"] ∧
      ∀ e ∈ K2470_set_voltage ⟨some 10, "CURR"⟩ 5,
        (∀ w, e ≠ K2470Ev.writeVolt w) ∧ (∀ w, e ≠ K2470Ev.writeCurr w)) ∧
    (K2470_set_current ⟨some 10, "VOLT"⟩ 3 =
        [.queryFunc, .warn "Tried to set current when in voltage source"] ∧
      ∀ e ∈ K2470_set_current ⟨some 10, "VOLT"⟩ 3,
        (∀ w, e ≠ K2470Ev.writeVolt w) ∧ (∀ w, e ≠ K2470Ev.writeCurr w)) :=
  ⟨(k2470_interlock ⟨some 10, "CURR"⟩ 5 0).1 (by decide),
    (k2470_interlock ⟨some 10, "VOLT"⟩ 0 3).2 (by decide)⟩

/-- A Python exception relevant to the channel-validated setters. -/
inductive PyErr
  | valueError (msg : String)
deriving DecidableEq, Repr

/-- Python truth-value test `not channel` for an optional string argument:
true for `None` and for the empty string. -/
def pyFalsy : Option String → Bool
  | Option.none => true
  | some s => s = ""

/-- `channel_map` of tti_PL303QMDP.py. -/
def ttiChannelMap : List (String × String) := [("CH1", "1"), ("CH2", "2")]

/-- `channel_map` of iseg_SHR.py. -/
def isegChannelMap : List (String × String) :=
  [("CH0", "0"), ("CH1", "1"), ("CH2", "2"), ("CH3", "3")]

/-- A wire event of the TTi / ISEG multi-channel supplies: plain writes for
the TTi, echo-style query-then-read pairs for the ISEG. -/
inductive PSUEv
  | writeV (chan : String) (v : ℚ)
  | writeI (chan : String) (v : ℚ)
  | writeOP (chan : String) (st : Bool)
  | writeOPALL (st : Bool)
  | queryVolt (sel : String) (v : ℚ)
  | queryCurr (sel : String) (v : ℚ)
  | queryVoltSwitch (sel : String) (st : Bool)
  | readEcho
deriving DecidableEq, Repr

/-- Embedding of `TTiPL303QMDP.set_voltage` (tti_PL303QMDP.py lines 134-141):
the result is the wire trace produced before any raise, paired with the
exception if one is raised. -/
def tti_set_voltage (voltage : ℚ) (channel : Option String) :
    List PSUEv × Option PyErr :=
  if pyFalsy channel then
    ([], some (.valueError "Channel must be specified for voltage setting."))
  else
    let ch := channel.getD ""
    match plookup ttiChannelMap ch with
    | Option.none => ([], some (.valueError ("Channel " ++ ch ++ " must be a valid channel.")))
    | some n => ([.writeV n voltage], Option.none)

/-- Embedding of `TTiPL303QMDP.set_current` (tti_PL303QMDP.py lines 143-150). -/
def tti_set_current (current : ℚ) (channel : Option String) :
    List PSUEv × Option PyErr :=
  if pyFalsy channel then
    ([], some (.valueError "Channel must be specified for current setting."))
  else
    let ch := channel.getD ""
    match plookup ttiChannelMap ch with
    | Option.none => ([], some (.valueError ("Channel " ++ ch ++ " must be a valid channel.")))
    | some n => ([.writeI n current], Option.none)

/-- Embedding of `TTiPL303QMDP.set_output` (tti_PL303QMDP.py lines 123-132):
`channel is None` drives all outputs; a supplied channel must be known. -/
def tti_set_output (state : Bool) (channel : Option String) :
    List PSUEv × Option PyErr :=
  match channel with
  | Option.none => ([.writeOPALL state], Option.none)
  | some ch =>
    match plookup ttiChannelMap ch with
    | Option.none => ([], some (.valueError ("Channel " ++ ch ++ " must be a valid channel.")))
    | some n => ([.writeOP n state], Option.none)

/-- Embedding of `ISEGSHR.set_voltage` (iseg_SHR.py lines 215-223). -/
def iseg_set_voltage (voltage : ℚ) (channel : Option String) :
    List PSUEv × Option PyErr :=
  if pyFalsy channel then
    ([], some (.valueError "Channel must be specified for voltage setting."))
  else
    let ch := channel.getD ""
    match plookup isegChannelMap ch with
    | Option.none => ([], some (.valueError ("Channel " ++ ch ++ " must be a valid channel.")))
    | some n => ([.queryVolt n voltage, .readEcho], Option.none)

/-- Embedding of `ISEGSHR.set_current` (iseg_SHR.py lines 225-233). -/
def iseg_set_current (current : ℚ) (channel : Option String) :
    List PSUEv × Option PyErr :=
  if pyFalsy channel then
    ([], some (.valueError "Channel must be specified for current setting."))
  else
    let ch := channel.getD ""
    match plookup isegChannelMap ch with
    | Option.none => ([], some (.valueError ("Channel " ++ ch ++ " must be a valid channel.")))
    | some n => ([.queryCurr n current, .readEcho], Option.none)

/-- Embedding of `ISEGSHR.set_output` (iseg_SHR.py lines 202-213). -/
def iseg_set_output (state : Bool) (channel : Option String) :
    List PSUEv × Option PyErr :=
  match channel with
  | Option.none => ([.queryVoltSwitch "0-3" state, .readEcho], Option.none)
  | some ch =>
    match plookup isegChannelMap ch with
    | Option.none => ([], some (.valueError ("Channel " ++ ch ++ " must be a valid channel.")))
    | some n => ([.queryVoltSwitch n state, .readEcho], Option.none)

/-- The call raised the channel-validation `ValueError` and performed no wire
transaction before doing so. -/
def raisesInvalidChannel {ε : Type} (r : List ε × Option PyErr) : Prop :=
  r.1 = [] ∧ ∃ m, r.2 = some (PyErr.valueError m)

/-- C9: on both multi-channel drivers, `set_voltage`/`set_current` raise the
channel-validation `ValueError` synchronously when the channel is missing
(falsy), and all of `set_voltage`/`set_current`/`set_output` raise it when an
unknown channel id is supplied; in every such case the wire trace is empty. -/
theorem multichannel_invalid_channel (v c : ℚ) (b : Bool) (ch : Option String) :
    (pyFalsy ch = true →
      raisesInvalidChannel (tti_set_voltage v ch) ∧
      raisesInvalidChannel (tti_set_current c ch) ∧
      raisesInvalidChannel (iseg_set_voltage v ch) ∧
      raisesInvalidChannel (iseg_set_current c ch)) ∧
    (∀ s, ch = some s → plookup ttiChannelMap s = Option.none →
      raisesInvalidChannel (tti_set_voltage v ch) ∧
      raisesInvalidChannel (tti_set_current c ch) ∧
      raisesInvalidChannel (tti_set_output b ch)) ∧
    (∀ s, ch = some s → plookup isegChannelMap s = Option.none →
      raisesInvalidChannel (iseg_set_voltage v ch) ∧
      raisesInvalidChannel (iseg_set_current c ch) ∧
      raisesInvalidChannel (iseg_set_output b ch)) := by
  refine ⟨?_, ?_, ?_⟩
  · intro hf
    exact ⟨by simp [tti_set_voltage, hf, raisesInvalidChannel],
      by simp [tti_set_current, hf, raisesInvalidChannel],
      by simp [iseg_set_voltage, hf, raisesInvalidChannel],
      by simp [iseg_set_current, hf, raisesInvalidChannel]⟩
  · intro s hs hnone
    subst hs
    by_cases he : pyFalsy (some s) = true
    · exact ⟨by simp [tti_set_voltage, he, raisesInvalidChannel],
        by simp [tti_set_current, he, raisesInvalidChannel],
        by simp [tti_set_output, hnone, raisesInvalidChannel]⟩
    · rw [Bool.not_eq_true] at he
      exact ⟨by simp [tti_set_voltage, he, hnone, raisesInvalidChannel],
        by simp [tti_set_current, he, hnone, raisesInvalidChannel],
        by simp [tti_set_output, hnone, raisesInvalidChannel]⟩
  · intro s hs hnone
    subst hs
    by_cases he : pyFalsy (some s) = true
    · exact ⟨by simp [iseg_set_voltage, he, raisesInvalidChannel],
        by simp [iseg_set_current, he, raisesInvalidChannel],
        by simp [iseg_set_output, hnone, raisesInvalidChannel]⟩
    · rw [Bool.not_eq_true] at he
      exact ⟨by simp [iseg_set_voltage, he, hnone, raisesInvalidChannel],
        by simp [iseg_set_current, he, hnone, raisesInvalidChannel],
        by simp [iseg_set_output, hnone, raisesInvalidChannel]⟩

/-- Witness for C9: a missing channel makes `tti_set_voltage` raise with an
empty trace, and the unknown channel id `CH7` does so on all six setters. -/
theorem multichannel_invalid_channel_witness :
    (raisesInvalidChannel (tti_set_voltage 5 Option.none) ∧
      raisesInvalidChannel (iseg_set_current 2 Option.none)) ∧
    (raisesInvalidChannel (tti_set_output true (some "CH7")) ∧
      raisesInvalidChannel (iseg_set_output true (some "CH7"))) := by
  have h1 := multichannel_invalid_channel 5 2 true Option.none
  have h2 := multichannel_invalid_channel 5 2 true (some "CH7")
  exact ⟨⟨(h1.1 (by decide)).1, (h1.1 (by decide)).2.2.2⟩,
    ⟨(h2.2.1 "CH7" rfl (by decide)).2.2, (h2.2.2 "CH7" rfl (by decide)).2.2⟩⟩

/-- Insertion of one key into a Python dict modelled as an association list:
an existing key is overwritten in place, a new key is appended. This is the
effect of one step of the `{**a, **b}` construction. -/
def dictInsert (d : List (String × ℚ)) (k : String) (v : ℚ) : List (String × ℚ) :=
  if d.any (fun p => p.1 = k) then d.map (fun p => if p.1 = k then (k, v) else p)
  else d ++ [(k, v)]

/-- The Python dict merge `{**a, **b}`: start from `a` and insert every pair
of `b` in order, so `b`'s values win on key collision. -/
def dictMerge (a b : List (String × ℚ)) : List (String × ℚ) :=
  b.foldl (fun acc p => dictInsert acc p.1 p.2) a

theorem plookup_map_replace_ne (d : List (String × ℚ)) (k key : String) (v : ℚ)
    (h : key ≠ k) :
    plookup (d.map (fun p => if p.1 = k then (k, v) else p)) key = plookup d key := by
  induction d with
  | nil => rfl
  | cons p rest ih =>
    rcases p with ⟨k₀, v₀⟩
    simp only [List.map_cons]
    by_cases hk : k₀ = k
    · subst hk
      rw [if_pos rfl]
      show plookup ((k₀, v) :: _) key = plookup ((k₀, v₀) :: rest) key
      simp only [plookup, if_neg (fun hc : k₀ = key => h hc.symm)]
      exact ih
    · rw [if_neg hk]
      simp only [plookup]
      by_cases hky : k₀ = key
      · rw [if_pos hky, if_pos hky]
      · rw [if_neg hky, if_neg hky]; exact ih

theorem plookup_map_replace_self (d : List (String × ℚ)) (k : String) (v : ℚ)
    (h : d.any (fun p => p.1 = k) = true) :
    plookup (d.map (fun p => if p.1 = k then (k, v) else p)) k = some v := by
  induction d with
  | nil => simp at h
  | cons p rest ih =>
    rcases p with ⟨k₀, v₀⟩
    simp only [List.map_cons]
    by_cases hk : k₀ = k
    · subst hk
      rw [if_pos rfl]
      simp [plookup]
    · rw [if_neg hk]
      simp only [plookup, if_neg hk]
      apply ih
      simpa [hk] using h

theorem plookup_append_single (d : List (String × ℚ)) (k key : String) (v : ℚ) :
    plookup (d ++ [(k, v)]) key =
      match plookup d key with
      | some w => some w
      | Option.none => if k = key then some v else Option.none := by
  induction d with
  | nil => rfl
  | cons p rest ih =>
    rcases p with ⟨k₀, v₀⟩
    simp only [List.cons_append, plookup]
    by_cases hky : k₀ = key
    · simp [hky]
    · simp [hky, ih]

theorem plookup_eq_none_of_not_mem (d : List (String × ℚ)) (key : String)
    (h : key ∉ d.map Prod.fst) : plookup d key = Option.none := by
  induction d with
  | nil => rfl
  | cons p rest ih =>
    rcases p with ⟨k₀, v₀⟩
    simp only [List.map_cons, List.mem_cons, not_or] at h
    simp only [plookup, if_neg (fun hc : k₀ = key => h.1 hc.symm)]
    exact ih h.2

theorem plookup_dictInsert (d : List (String × ℚ)) (k key : String) (v : ℚ) :
    plookup (dictInsert d k v) key = if key = k then some v else plookup d key := by
  unfold dictInsert
  by_cases hany : d.any (fun p => p.1 = k) = true
  · rw [if_pos hany]
    by_cases hk : key = k
    · subst hk
      rw [if_pos rfl]
      exact plookup_map_replace_self d key v hany
    · rw [if_neg hk]
      exact plookup_map_replace_ne d k key v hk
  · rw [if_neg hany, plookup_append_single]
    by_cases hk : key = k
    · subst hk
      have hnone : plookup d key = Option.none := by
        apply plookup_eq_none_of_not_mem
        intro hmem
        apply hany
        rw [List.any_eq_true]
        rcases List.mem_map.mp hmem with ⟨p, hp, hfst⟩
        exact ⟨p, hp, by simp [hfst]⟩
      simp [hnone]
    · rw [if_neg hk]
      cases hpd : plookup d key with
      | none => simp [Ne.symm hk]
      | some w => simp

theorem plookup_dictMerge (b : List (String × ℚ)) :
    ∀ (a : List (String × ℚ)) (key : String), (b.map Prod.fst).Nodup →
      plookup (dictMerge a b) key =
        match plookup b key with
        | some w => some w
        | Option.none => plookup a key := by
  induction b with
  | nil => intro a key _; rfl
  | cons p rest ih =>
    intro a key hnd
    rcases p with ⟨k₀, v₀⟩
    simp only [List.map_cons, List.nodup_cons] at hnd
    have hstep : dictMerge a ((k₀, v₀) :: rest) = dictMerge (dictInsert a k₀ v₀) rest := rfl
    rw [hstep, ih _ key hnd.2]
    by_cases hk : key = k₀
    · subst hk
      have hrest : plookup rest key = Option.none :=
        plookup_eq_none_of_not_mem rest key hnd.1
      rw [hrest, plookup_dictInsert]
      simp [plookup]
    · have hne : ¬ k₀ = key := fun hc => hk hc.symm
      cases hr : plookup rest key with
      | none => rw [plookup_dictInsert]; simp [plookup, hne, hk, hr]
      | some w => simp [plookup, hne, hr]

/-- One configured instrument as the polling loop sees it in one cycle: its
name and the outcomes of its `read()` and `get_set_values()` calls, either a
readings map or a raised exception (`Except.error` carries the message). -/
structure DaemonInst where
  name : String
  readResult : Except String (List (String × ℚ))
  setValsResult : Except String (List (String × ℚ))

/-- An outward-facing event of one polling cycle: an MQTT publish of a merged
payload, or the `log.info` fallback when no bus is configured. -/
inductive CycleEvent
  | publish (topic : String) (payload : List (String × ℚ))
  | logInfo (name : String) (payload : List (String × ℚ))
deriving DecidableEq, Repr

/-- Embedding of the per-instrument body of `measurement_loop`
(daemon.py lines 218-226). There is no try/except in the source: the first
raising `read()`/`get_set_values()` propagates (second component `some e`),
and no further instrument of the cycle is polled or published. -/
def pollCycle (rTopic : Option String) : List DaemonInst → List CycleEvent × Option String
  | [] => ([], Option.none)
  | i :: rest =>
    match i.readResult with
    | .error e => ([], some e)
    | .ok readings =>
      match i.setValsResult with
      | .error e => ([], some e)
      | .ok setVals =>
        let payload := dictMerge readings setVals
        let ev :=
          match rTopic with
          | some t => CycleEvent.publish (t ++ "/" ++ i.name) payload
          | Option.none => CycleEvent.logInfo i.name payload
        let r := pollCycle rTopic rest
        (ev :: r.1, r.2)

/-- The module-level scheduling variables of daemon.py (`interval`,
`next_time`, `changed_interval`, `change_time`) together with the nominal
`native_interval`, guarded by `time_lock`. -/
structure Sched where
  interval : ℚ
  nativeInterval : ℚ
  nextTime : ℚ
  changedInterval : Bool
  changeTime : ℚ
deriving DecidableEq, Repr

/-- Embedding of the override arming in `handle_mqtt` (daemon.py lines
144-148): `interval := 1`, `changed_interval := True`, `change_time := now`,
`next_time := now`. -/
def armOverride (s : Sched) (now : ℚ) : Sched :=
  { s with interval := 1, changedInterval := true, changeTime := now, nextTime := now }

/-- Embedding of the scheduling step at the end of a poll cycle (daemon.py
lines 228-232): `next_time += interval`, then revert the override when it has
been active for more than 30 time units. -/
def schedUpdate (s : Sched) (now : ℚ) : Sched :=
  let s1 := { s with nextTime := s.nextTime + s.interval }
  if s1.changedInterval = true ∧ now - s1.changeTime > 30 then
    { s1 with changedInterval := false, interval := s1.nativeInterval }
  else s1

/-- Guard of the bounded wait loop (daemon.py lines 234-235):
`while not stop_event.is_set() and time.time() < next_time`. -/
def waitGuard (stop : Bool) (s : Sched) (now : ℚ) : Bool :=
  !stop && decide (now < s.nextTime)

/-- One iteration of the `while not stop_event.is_set()` loop of
`measurement_loop`: poll all instruments; if an exception propagated, the
iteration aborts before the schedule update (and the loop thread dies),
otherwise the deadline is advanced. -/
def loopIteration (rTopic : Option String) (insts : List DaemonInst) (s : Sched)
    (now : ℚ) : List CycleEvent × Option String × Sched :=
  match pollCycle rTopic insts with
  | (evs, some e) => (evs, some e, s)
  | (evs, Option.none) => (evs, Option.none, schedUpdate s now)

/-- C1 (code-bug evidence): `measurement_loop` wraps no try/except around the
per-instrument `read()`/`get_set_values()` calls, so when the first
instrument's `read()` raises a timeout, the cycle emits no event at all — the
healthy second instrument is neither polled nor published — the schedule is
never advanced, and the exception propagates out of the loop, terminating the
polling thread. This contradicts the claimed catch-log-continue behavior. -/
theorem pollCycle_aborts_on_instrument_error :
    loopIteration (some "readings")
      [⟨"smu1", Except.error "VisaIOError: timeout expired", Except.ok []⟩,
        ⟨"psu1", Except.ok [("voltage", 1)], Except.ok [("set_voltage", 1)]⟩]
      ⟨60, 60, 0, false, 0⟩ 7
    = ([], some "VisaIOError: timeout expired", ⟨60, 60, 0, false, 0⟩) := rfl

/-- C6: scheduling is deadline-based and drift-free — the updated deadline is
exactly the previous deadline plus the current effective interval, whatever
the wall-clock time `now` at the end of cycle execution is; and once
wall-clock time has reached the deadline the wait-loop guard is false, so the
next cycle starts immediately even if the deadline has already passed. -/
theorem deadline_scheduling_drift_free (s : Sched) (now : ℚ) :
    (schedUpdate s now).nextTime = s.nextTime + s.interval ∧
    (∀ t, s.nextTime ≤ t → waitGuard false s t = false) := by
  constructor
  · unfold schedUpdate
    simp only []
    split <;> rfl
  · intro t ht
    simp [waitGuard, not_lt.mpr ht]

/-- Witness for C6: nominal interval 10, previous deadline 100, cycle
execution ending at 103 ⇒ next deadline 110 (not 113); at wall-clock 110 the
wait guard is already false. -/
theorem deadline_scheduling_drift_free_witness :
    (schedUpdate ⟨10, 10, 100, false, 0⟩ 103).nextTime = 100 + 10 ∧
    waitGuard false ⟨10, 10, 100, false, 0⟩ 110 = false := by
  have h := deadline_scheduling_drift_free ⟨10, 10, 100, false, 0⟩ 103
  exact ⟨h.1, h.2 110 (by norm_num)⟩

/-- C7: the payload published for an instrument whose `read()` and
`get_set_values()` both succeed is `{**readings, **set_vals}`, and looking up
any key in that merge yields the `get_set_values()` value when the key
collides, else the `read()` value (set-values take precedence on every key of
the union). -/
theorem publish_merge_precedence (readings setVals : List (String × ℚ))
    (rTopic name : String) (rest : List DaemonInst) (key : String)
    (hnd : (setVals.map Prod.fst).Nodup) :
    (pollCycle (some rTopic) (⟨name, Except.ok readings, Except.ok setVals⟩ :: rest)).1.head? =
      some (CycleEvent.publish (rTopic ++ "/" ++ name) (dictMerge readings setVals)) ∧
    plookup (dictMerge readings setVals) key =
      (match plookup setVals key with
        | some w => some w
        | Option.none => plookup readings key) := by
  exact ⟨rfl, plookup_dictMerge setVals readings key hnd⟩

/-- Witness for C7: `read() = {voltage: 1}` and
`get_set_values() = {voltage: 9/10, set_current: 1/10}` publish a payload
whose `voltage` is `9/10`. -/
theorem publish_merge_precedence_witness :
    (pollCycle (some "readings")
        [⟨"smu1", Except.ok [("voltage", 1)],
          Except.ok [("voltage", 9/10), ("set_current", 1/10)]⟩]).1.head? =
      some (CycleEvent.publish ("readings" ++ "/" ++ "smu1")
        (dictMerge [("voltage", 1)] [("voltage", 9/10), ("set_current", 1/10)])) ∧
    plookup (dictMerge [("voltage", 1)] [("voltage", 9/10), ("set_current", 1/10)]) "voltage" =
      (match plookup [("voltage", (9 : ℚ)/10), ("set_current", 1/10)] "voltage" with
        | some w => some w
        | Option.none => plookup [("voltage", 1)] "voltage") :=
  publish_merge_precedence [("voltage", 1)] [("voltage", 9/10), ("set_current", 1/10)]
    "readings" "smu1" [] "voltage" (by decide)

/-- A parsed JSON payload value. Python distinguishes ints (including bools)
from floats for the `isinstance(value, int)` test in the `configure` branch;
a JSON object is opaque to the router (it is only passed through to
`configure`), modelled by a tag. -/
inductive JsonVal
  | int (n : ℤ)
  | float (q : ℚ)
  | str (s : String)
  | bool (b : Bool)
  | null
  | dict (tag : ℕ)
deriving DecidableEq, Repr

/-- Python `isinstance(value, int)`: true for ints and bools. -/
def pyIsInt : JsonVal → Bool
  | .int _ => true
  | .bool _ => true
  | _ => false

/-- Python `value != 0`: numeric values compare numerically (with
`True`/`False` as `1`/`0`); values of any other type are unequal to `0`. -/
def pyNeZero : JsonVal → Bool
  | .int n => n ≠ 0
  | .bool b => b
  | .float q => q ≠ 0
  | _ => true

/-- One log call of `handle_mqtt`, one constructor per call site;
`gotMessage`, `tryingCommand` and `doneCommand` are debug level,
`invalidPayload` is a warning, `unknownCommand` and `mqttError` are errors. -/
inductive LogEvent
  | gotMessage
  | invalidPayload (topic : String)
  | tryingCommand (cmd : String)
  | doneCommand (cmd : String)
  | unknownCommand (cmd : String)
  | mqttError (e : String)
deriving DecidableEq, Repr

/-- Whether a log entry is of warning or error severity, i.e. actually
records a problem (the debug entries do not). -/
def LogEvent.isProblem : LogEvent → Bool
  | .invalidPayload _ => true
  | .unknownCommand _ => true
  | .mqttError _ => true
  | _ => false

/-- A driver method invocation the router can make. -/
inductive DriverCall
  | setVoltage (v : JsonVal) (channel : Option String)
  | setCurrent (v : JsonVal) (channel : Option String)
  | setOutput (v : JsonVal) (channel : Option String)
  | configureDefault
  | configureWith (v : JsonVal)
  | resetDevice
deriving DecidableEq, Repr

/-- Observable outcome of one `handle_mqtt` invocation: the log entries in
order, the driver calls attempted (at most one), and the final scheduling
state. -/
structure RouterResult where
  logs : List LogEvent
  calls : List DriverCall
  sched : Sched
deriving DecidableEq, Repr

/-- The channel argument actually passed to a driver method: the call sites
test `if channel:`, so `None` and the empty string mean "no channel". -/
def channelArg : Option String → Option String
  | Option.none => Option.none
  | some c => if c = "" then Option.none else some c

/-- One attempted driver call inside the `try` block: if the call raises
(`driver c = some e`), the exception escapes the routing code (second
component) and the trailing done-debug entry is not logged. -/
def attemptCall (driver : DriverCall → Option String) (cmd : String)
    (c : DriverCall) (s' : Sched) : RouterResult × Option String :=
  match driver c with
  | some e => (⟨[.gotMessage, .tryingCommand cmd], [c], s'⟩, some e)
  | Option.none => (⟨[.gotMessage, .tryingCommand cmd, .doneCommand cmd], [c], s'⟩, Option.none)

/-- The command-routing chain of `handle_mqtt` (daemon.py lines 150-178),
entered with the override already armed (state `s'`). -/
def routeCommand (driver : DriverCall → Option String) (cmd : String)
    (ch : Option String) (v : JsonVal) (s' : Sched) : RouterResult × Option String :=
  if cmd = "set_voltage" then attemptCall driver cmd (.setVoltage v (channelArg ch)) s'
  else if cmd = "set_current" then attemptCall driver cmd (.setCurrent v (channelArg ch)) s'
  else if cmd = "output" then attemptCall driver cmd (.setOutput v (channelArg ch)) s'
  else if cmd = "configure" then
    if pyIsInt v then
      if pyNeZero v then attemptCall driver cmd .configureDefault s'
      else (⟨[.gotMessage, .tryingCommand cmd, .doneCommand cmd], [], s'⟩, Option.none)
    else attemptCall driver cmd (.configureWith v) s'
  else if cmd = "reset" then
    if pyNeZero v then attemptCall driver cmd .resetDevice s'
    else (⟨[.gotMessage, .tryingCommand cmd, .doneCommand cmd], [], s'⟩, Option.none)
  else (⟨[.gotMessage, .tryingCommand cmd, .unknownCommand cmd, .doneCommand cmd], [], s'⟩, Option.none)

def splitSlashAux : List Char → List Char → List String
  | [], acc => [⟨acc.reverse⟩]
  | c :: rest, acc =>
    if c = '/' then ⟨acc.reverse⟩ :: splitSlashAux rest []
    else splitSlashAux rest (c :: acc)

/-- Python's `msg.topic.split("/")` for the one-character separator used by
the router: splits at every slash, keeping empty segments. -/
def splitSlash (s : String) : List String :=
  splitSlashAux s.data []

/-- The body of `handle_mqtt`'s `try` block (daemon.py lines 117-178).
Inputs: the known instrument names, the per-instrument driver behavior
(`driver name call = some e` means that call raises `e`), the scheduling
state and current time, the topic, and the payload (`Option.none` models a
`json.JSONDecodeError`). The second component is an exception escaping the
body. Topic splitting, the `len < 3` guard, the unknown-instrument early
return, the channel/command split of the remaining segments and the override
arming follow the source line by line. -/
def handle_mqtt_try (insts : List String) (driver : String → DriverCall → Option String)
    (s : Sched) (now : ℚ) (topic : String) (payload : Option JsonVal) :
    RouterResult × Option String :=
  match splitSlash topic with
  | _ :: name :: c₁ :: rest =>
    if name ∈ insts then
      match payload with
      | Option.none => (⟨[.gotMessage, .invalidPayload topic], [], s⟩, Option.none)
      | some v =>
        let s' := armOverride s now
        match rest with
        | [c₂] => routeCommand (driver name) c₂ (some c₁) v s'
        | _ => routeCommand (driver name) c₁ Option.none v s'
    else (⟨[.gotMessage], [], s⟩, Option.none)
  | _ => (⟨[.gotMessage], [], s⟩, Option.none)

/-- Embedding of `handle_mqtt` as a whole: the surrounding
`try/except Exception` turns any exception escaping the body into one
`log.error` entry, and the handler returns normally. -/
def handle_mqtt (insts : List String) (driver : String → DriverCall → Option String)
    (s : Sched) (now : ℚ) (topic : String) (payload : Option JsonVal) : RouterResult :=
  match handle_mqtt_try insts driver s now topic payload with
  | (r, Option.none) => r
  | (r, some e) => { r with logs := r.logs ++ [.mqttError e] }

theorem attemptCall_sched (driver : DriverCall → Option String) (cmd : String)
    (c : DriverCall) (s' : Sched) : (attemptCall driver cmd c s').1.sched = s' := by
  unfold attemptCall
  cases driver c <;> rfl

theorem routeCommand_sched (driver : DriverCall → Option String) (cmd : String)
    (ch : Option String) (v : JsonVal) (s' : Sched) :
    (routeCommand driver cmd ch v s').1.sched = s' := by
  unfold routeCommand
  split_ifs <;> first
    | apply attemptCall_sched
    | rfl

theorem handle_mqtt_sched (insts : List String)
    (driver : String → DriverCall → Option String) (s : Sched) (now : ℚ)
    (topic : String) (payload : Option JsonVal) :
    (handle_mqtt insts driver s now topic payload).sched =
      (handle_mqtt_try insts driver s now topic payload).1.sched := by
  unfold handle_mqtt
  rcases h : handle_mqtt_try insts driver s now topic payload with ⟨r, exc⟩
  cases exc <;> simp

/-- C2: on any accepted control message (topic with at least three segments,
known instrument, well-formed JSON payload) the handler's final scheduling
state is exactly `armOverride s now` — effective interval 1, override flag
set, arming time recorded, next deadline set to now — whatever the command
and even if the driver call raises; on a poll cycle with the override active
the revert happens exactly when more than 30 time units have elapsed since
the last arming (restoring the nominal interval, and leaving the interval
untouched otherwise); and a second arming re-arms the start time without
changing the effective interval. -/
theorem override_protocol (insts : List String)
    (driver : String → DriverCall → Option String) (s : Sched) (now : ℚ)
    (topic : String) (payload : Option JsonVal) (v : JsonVal)
    (p₀ name c₁ : String) (rest : List String)
    (hsplit : splitSlash topic = p₀ :: name :: c₁ :: rest)
    (hknown : name ∈ insts) (hpayload : payload = some v) :
    (handle_mqtt insts driver s now topic payload).sched = armOverride s now ∧
    ((armOverride s now).interval = 1 ∧
      (armOverride s now).changedInterval = true ∧
      (armOverride s now).changeTime = now ∧
      (armOverride s now).nextTime = now) ∧
    (∀ (s₂ : Sched) (t : ℚ), s₂.changedInterval = true →
      (((schedUpdate s₂ t).changedInterval = false) ↔ t - s₂.changeTime > 30) ∧
      (t - s₂.changeTime > 30 → (schedUpdate s₂ t).interval = s₂.nativeInterval) ∧
      (¬ t - s₂.changeTime > 30 → (schedUpdate s₂ t).interval = s₂.interval)) ∧
    (∀ t₂ : ℚ, (armOverride (armOverride s now) t₂).changeTime = t₂ ∧
      (armOverride (armOverride s now) t₂).interval = (armOverride s now).interval) := by
  refine ⟨?_, ⟨rfl, rfl, rfl, rfl⟩, ?_, ?_⟩
  · rw [handle_mqtt_sched]
    subst hpayload
    unfold handle_mqtt_try
    rw [hsplit]
    simp only [if_pos hknown]
    rcases rest with _ | ⟨c₂, _ | ⟨c₃, rest'⟩⟩
    · exact routeCommand_sched (driver name) c₁ Option.none v (armOverride s now)
    · exact routeCommand_sched (driver name) c₂ (some c₁) v (armOverride s now)
    · exact routeCommand_sched (driver name) c₁ Option.none v (armOverride s now)
  · intro s₂ t h₂
    by_cases ht : t - s₂.changeTime > 30
    · refine ⟨?_, fun _ => ?_, fun hc => absurd ht hc⟩ <;>
        simp [schedUpdate, h₂, ht]
    · refine ⟨?_, fun hc => absurd hc ht, fun _ => ?_⟩ <;>
        simp [schedUpdate, h₂, ht]
  · intro t₂
    exact ⟨rfl, rfl⟩

/-- Witness for C2: the accepted message `control/psu1/output` with payload
`true` arms the override on a concrete schedule state. -/
theorem override_protocol_witness :
    (handle_mqtt ["psu1"] (fun _ _ => Option.none) ⟨60, 60, 0, false, 0⟩ 5
        "control/psu1/output" (some (.bool true))).sched =
      armOverride ⟨60, 60, 0, false, 0⟩ 5 ∧
    ((armOverride ⟨60, 60, 0, false, 0⟩ 5).interval = 1 ∧
      (armOverride ⟨60, 60, 0, false, 0⟩ 5).changedInterval = true ∧
      (armOverride ⟨60, 60, 0, false, 0⟩ 5).changeTime = 5 ∧
      (armOverride ⟨60, 60, 0, false, 0⟩ 5).nextTime = 5) ∧
    (∀ (s₂ : Sched) (t : ℚ), s₂.changedInterval = true →
      (((schedUpdate s₂ t).changedInterval = false) ↔ t - s₂.changeTime > 30) ∧
      (t - s₂.changeTime > 30 → (schedUpdate s₂ t).interval = s₂.nativeInterval) ∧
      (¬ t - s₂.changeTime > 30 → (schedUpdate s₂ t).interval = s₂.interval)) ∧
    (∀ t₂ : ℚ,
      (armOverride (armOverride ⟨60, 60, 0, false, 0⟩ 5) t₂).changeTime = t₂ ∧
      (armOverride (armOverride ⟨60, 60, 0, false, 0⟩ 5) t₂).interval =
        (armOverride ⟨60, 60, 0, false, 0⟩ 5).interval) :=
  override_protocol ["psu1"] (fun _ _ => Option.none) ⟨60, 60, 0, false, 0⟩ 5
    "control/psu1/output" (some (.bool true)) (.bool true) "control" "psu1" "output" []
    rfl (by decide) rfl

/-- C8 counterexample: for the unknown-instrument message
`control/unknown/output` the handler emits no log entry recording the
problem — its complete result is the single debug entry `gotMessage`, no
driver call, and the unchanged schedule — so the claim that such a message
is *logged* and dropped is false on the code (the drop is silent). -/
theorem router_unknown_instrument_counterexample :
    (handle_mqtt ["psu1"] (fun _ _ => Option.none) ⟨60, 60, 0, false, 0⟩ 0
        "control/unknown/output" (some (.int 1))) =
      ⟨[.gotMessage], [], ⟨60, 60, 0, false, 0⟩⟩ ∧
    ∀ l ∈ (handle_mqtt ["psu1"] (fun _ _ => Option.none) ⟨60, 60, 0, false, 0⟩ 0
        "control/unknown/output" (some (.int 1))).logs,
      LogEvent.isProblem l = false := by
  exact ⟨rfl, by decide⟩

/-- C8 (amended): an unknown-instrument message is dropped silently (the only
log entry is the debug trace), while a malformed-JSON payload for a known
instrument is dropped with a logged warning; in both cases no driver method
is called, the schedule override is not armed (state returned unchanged), and
the handler returns normally. -/
theorem router_drop_semantics (insts : List String)
    (driver : String → DriverCall → Option String) (s : Sched) (now : ℚ)
    (topic : String) (payload : Option JsonVal)
    (p₀ name c₁ : String) (rest : List String)
    (hsplit : splitSlash topic = p₀ :: name :: c₁ :: rest) :
    (name ∉ insts →
      handle_mqtt insts driver s now topic payload =
        ⟨[.gotMessage], [], s⟩) ∧
    (name ∈ insts → payload = Option.none →
      handle_mqtt insts driver s now topic payload =
        ⟨[.gotMessage, .invalidPayload topic], [], s⟩) := by
  constructor
  · intro hunk
    unfold handle_mqtt handle_mqtt_try
    rw [hsplit]
    simp [hunk]
  · intro hknown hp
    subst hp
    unfold handle_mqtt handle_mqtt_try
    rw [hsplit]
    simp [hknown]

/-- Witness for C8 (amended): concrete unknown-instrument and
malformed-payload messages produce exactly the amended results. -/
theorem router_drop_semantics_witness :
    (handle_mqtt ["psu1"] (fun _ _ => Option.none) ⟨60, 60, 0, false, 0⟩ 0
        "control/unknown/output" (some (.int 1)) =
      ⟨[.gotMessage], [], ⟨60, 60, 0, false, 0⟩⟩) ∧
    (handle_mqtt ["psu1"] (fun _ _ => Option.none) ⟨60, 60, 0, false, 0⟩ 0
        "control/psu1/output" Option.none =
      ⟨[.gotMessage, .invalidPayload "control/psu1/output"], [], ⟨60, 60, 0, false, 0⟩⟩) :=
  ⟨(router_drop_semantics ["psu1"] (fun _ _ => Option.none) ⟨60, 60, 0, false, 0⟩ 0
      "control/unknown/output" (some (.int 1)) "control" "unknown" "output" [] rfl).1
      (by decide),
    (router_drop_semantics ["psu1"] (fun _ _ => Option.none) ⟨60, 60, 0, false, 0⟩ 0
      "control/psu1/output" Option.none "control" "psu1" "output" [] rfl).2
      (by decide) rfl⟩

/-- C10: `handle_mqtt` never propagates an exception — whenever the body of
its `try` block (routing plus the driver call it triggers) raises `e`, the
handler catches it, appends the single `log.error` entry for it, and returns
a normal result whose scheduling state is the one the body produced. -/
theorem handle_mqtt_catches_exceptions (insts : List String)
    (driver : String → DriverCall → Option String) (s : Sched) (now : ℚ)
    (topic : String) (payload : Option JsonVal) (e : String)
    (h : (handle_mqtt_try insts driver s now topic payload).2 = some e) :
    LogEvent.mqttError e ∈ (handle_mqtt insts driver s now topic payload).logs ∧
    (handle_mqtt insts driver s now topic payload).sched =
      (handle_mqtt_try insts driver s now topic payload).1.sched := by
  rcases htry : handle_mqtt_try insts driver s now topic payload with ⟨r, exc⟩
  rw [htry] at h
  simp only [] at h
  subst h
  unfold handle_mqtt
  rw [htry]
  exact ⟨by simp, rfl⟩

/-- Witness for C10: a driver whose every call raises `boom` leads to a
caught, logged exception and a normal return. -/
theorem handle_mqtt_catches_exceptions_witness :
    LogEvent.mqttError "boom" ∈
      (handle_mqtt ["psu1"] (fun _ _ => some "boom") ⟨60, 60, 0, false, 0⟩ 0
        "control/psu1/set_voltage" (some (.float 2))).logs ∧
    (handle_mqtt ["psu1"] (fun _ _ => some "boom") ⟨60, 60, 0, false, 0⟩ 0
        "control/psu1/set_voltage" (some (.float 2))).sched =
      (handle_mqtt_try ["psu1"] (fun _ _ => some "boom") ⟨60, 60, 0, false, 0⟩ 0
        "control/psu1/set_voltage" (some (.float 2))).1.sched :=
  handle_mqtt_catches_exceptions ["psu1"] (fun _ _ => some "boom")
    ⟨60, 60, 0, false, 0⟩ 0 "control/psu1/set_voltage" (some (.float 2)) "boom" rfl
